import Mathlib

/-!
Verification of the wildfire-risk aggregation core of `src/backend/main.py`
(EastonEtta/gis-app), shallowly embedded in Lean 4.

Conventions of the embedding:
* Python floats (JSON numbers, parsed coordinates, weather fields) are
  modelled as `ℚ`; the integer risk score is `ℤ`.
* Python dicts that flow through the pipeline as feature property maps are
  modelled as association lists `List (String × PropValue)`; all dicts built
  by this code have pairwise-distinct keys, so first-match lookup agrees
  with Python dict lookup.  A missing-key bracket access (`props[k]`,
  `KeyError`) is modelled as a `none` lookup propagated as `Except.error`.
* Fallible upstream HTTP calls are modelled by an oracle
  `fetch : County → FetchOutcome` passed explicitly: `raised` stands for a
  request exception (network error / timeout), `ok status body` for a
  response, where a malformed JSON body is `Except.error`.
-/

namespace GisApp

/-- Values stored in a feature's property dict: strings, floats (as `ℚ`),
or Python ints (as `ℤ`). -/
inductive PropValue where
  | s (v : String)
  | q (v : ℚ)
  | i (v : ℤ)
  deriving DecidableEq

/-- A GeoJSON `Feature` of the pipeline: geometry is always a `Point`, so we
keep only its `[lon, lat]` coordinate pair, plus the property dict. -/
structure Feature where
  coordinates : ℚ × ℚ
  properties : List (String × PropValue)
  deriving DecidableEq

/-- First-match lookup in a property dict; models Python `d.get(k)` /
`d[k]` (the latter raising `KeyError` when the result is `none`). -/
def dictGet (d : List (String × PropValue)) (k : String) : Option PropValue :=
  (d.find? (fun kv => kv.1 == k)).map (fun kv => kv.2)

/-! ## RiskScorer: `get_weather_risk_texas`, main.py lines 418-439.

The Python loop body accumulates `risk_score` by `if cond: risk_score += k`
steps; each such step is embedded as `+ (if cond then k else 0)`, in the
source's order, ending with the precipitation penalty `risk_score -= 20`. -/

/-- The additive fire-risk sum before clamping (main.py lines 419-437). -/
def risk_score_raw (temp humidity wind_speed precipitation : ℚ) : ℤ :=
  0 + (if temp > 75 then 10 else 0)
    + (if temp > 85 then 15 else 0)
    + (if temp > 95 then 15 else 0)
    + (if humidity < 40 then 10 else 0)
    + (if humidity < 25 then 15 else 0)
    + (if humidity < 15 then 10 else 0)
    + (if wind_speed > 10 then 10 else 0)
    + (if wind_speed > 20 then 10 else 0)
    + (if wind_speed > 30 then 10 else 0)
    + (if precipitation > 0 then -20 else 0)

/-- The clamped risk score: `risk_score = max(0, min(100, risk_score))`
(main.py line 439). -/
def risk_score (temp humidity wind_speed precipitation : ℚ) : ℤ :=
  max 0 (min 100 (risk_score_raw temp humidity wind_speed precipitation))

/-- Risk level and display color from the score (main.py lines 442-453). -/
def risk_level_color (score : ℤ) : String × String :=
  if score ≥ 76 then ("extreme", "#8B0000")
  else if score ≥ 51 then ("high", "#FF4500")
  else if score ≥ 26 then ("moderate", "#FFA500")
  else ("low", "#90EE90")

/-- The risk level alone. -/
def risk_level (score : ℤ) : String :=
  (risk_level_color score).1

/-! ### Helper lemmas about the scorer. -/

lemma ite_nonneg (c : Prop) [Decidable c] {k : ℤ} (hk : 0 ≤ k) :
    (0 : ℤ) ≤ if c then k else 0 := by
  split <;> omega

lemma ite_le_self (c : Prop) [Decidable c] {k : ℤ} (hk : 0 ≤ k) :
    (if c then k else 0) ≤ k := by
  split <;> omega

lemma ite_gt_mono {x y c : ℚ} {k : ℤ} (hk : 0 ≤ k) (hxy : x ≤ y) :
    (if x > c then k else 0) ≤ (if y > c then k else 0) := by
  split_ifs with h1 h2
  · exact le_refl k
  · exact absurd (lt_of_lt_of_le h1 hxy) h2
  · exact hk
  · exact le_refl 0

lemma ite_lt_anti {x y c : ℚ} {k : ℤ} (hk : 0 ≤ k) (hxy : x ≤ y) :
    (if y < c then k else 0) ≤ (if x < c then k else 0) := by
  split_ifs with h1 h2
  · exact le_refl k
  · exact absurd (lt_of_le_of_lt hxy h1) h2
  · exact hk
  · exact le_refl 0

lemma risk_score_bounds (t h w p : ℚ) :
    0 ≤ risk_score t h w p ∧ risk_score t h w p ≤ 100 := by
  unfold risk_score
  constructor
  · exact le_max_left 0 _
  · exact max_le (by norm_num) (min_le_left 100 _)

lemma risk_score_raw_mono_temp {t1 t2 h w p : ℚ} (ht : t1 ≤ t2) :
    risk_score_raw t1 h w p ≤ risk_score_raw t2 h w p := by
  have h75 := ite_gt_mono (c := 75) (k := 10) (by norm_num) ht
  have h85 := ite_gt_mono (c := 85) (k := 15) (by norm_num) ht
  have h95 := ite_gt_mono (c := 95) (k := 15) (by norm_num) ht
  unfold risk_score_raw
  omega

lemma risk_score_raw_anti_humidity {t h1 h2 w p : ℚ} (hh : h1 ≤ h2) :
    risk_score_raw t h2 w p ≤ risk_score_raw t h1 w p := by
  have h40 := ite_lt_anti (c := 40) (k := 10) (by norm_num) hh
  have h25 := ite_lt_anti (c := 25) (k := 15) (by norm_num) hh
  have h15 := ite_lt_anti (c := 15) (k := 10) (by norm_num) hh
  unfold risk_score_raw
  omega

lemma risk_score_raw_mono_wind {t h w1 w2 p : ℚ} (hw : w1 ≤ w2) :
    risk_score_raw t h w1 p ≤ risk_score_raw t h w2 p := by
  have h10 := ite_gt_mono (c := 10) (k := 10) (by norm_num) hw
  have h20 := ite_gt_mono (c := 20) (k := 10) (by norm_num) hw
  have h30 := ite_gt_mono (c := 30) (k := 10) (by norm_num) hw
  unfold risk_score_raw
  omega

lemma clamp_mono {s1 s2 : ℤ} (h : s1 ≤ s2) :
    max 0 (min 100 s1) ≤ max 0 (min 100 s2) :=
  max_le_max (le_refl 0) (min_le_min (le_refl 100) h)

lemma five_dvd_ite (c : Prop) [Decidable c] {k : ℤ} (hk : (5 : ℤ) ∣ k) :
    (5 : ℤ) ∣ (if c then k else 0) := by
  split
  · exact hk
  · exact dvd_zero 5

/-- C4: the clamped score is bounded: for every observation, including
pathological ones, `risk_score ∈ [0, 100]`. -/
theorem claim_C4_score_clamped (t h w p : ℚ) :
    0 ≤ risk_score t h w p ∧ risk_score t h w p ≤ 100 :=
  risk_score_bounds t h w p

/-- C5: the score is monotone non-decreasing in temperature and wind speed
and non-increasing in humidity, other inputs fixed. -/
theorem claim_C5_score_monotone (t t1 t2 h h1 h2 w w1 w2 p : ℚ)
    (ht : t1 ≤ t2) (hh : h1 ≤ h2) (hw : w1 ≤ w2) :
    risk_score t1 h w p ≤ risk_score t2 h w p ∧
    risk_score t h2 w p ≤ risk_score t h1 w p ∧
    risk_score t h w1 p ≤ risk_score t h w2 p :=
  ⟨clamp_mono (risk_score_raw_mono_temp ht),
   clamp_mono (risk_score_raw_anti_humidity hh),
   clamp_mono (risk_score_raw_mono_wind hw)⟩

/-- Witness for C5 at concrete inputs. -/
theorem claim_C5_score_monotone_witness :
    (60 : ℚ) ≤ 80 ∧ (20 : ℚ) ≤ 55 ∧ (3 : ℚ) ≤ 12 ∧
    (risk_score 60 50 5 0 ≤ risk_score 80 50 5 0 ∧
     risk_score 70 55 5 0 ≤ risk_score 70 20 5 0 ∧
     risk_score 70 50 3 0 ≤ risk_score 70 50 12 0) :=
  ⟨by norm_num, by norm_num, by norm_num,
   claim_C5_score_monotone 70 60 80 50 20 55 5 3 12 0
     (by norm_num) (by norm_num) (by norm_num)⟩

/-- C9 (implicit): every contribution and both clamp bounds are multiples
of 5, so the final score is a multiple of 5 lying in 0..100. -/
theorem claim_C9_score_multiple_of_five (t h w p : ℚ) :
    (5 : ℤ) ∣ risk_score t h w p ∧
    0 ≤ risk_score t h w p ∧ risk_score t h w p ≤ 100 := by
  refine ⟨?_, risk_score_bounds t h w p⟩
  have hraw : (5 : ℤ) ∣ risk_score_raw t h w p := by
    unfold risk_score_raw
    repeat' apply dvd_add
    all_goals first
      | exact dvd_refl 5
      | exact dvd_zero 5
      | exact five_dvd_ite _ (by norm_num)
  unfold risk_score
  rcases le_total 100 (risk_score_raw t h w p) with hle | hle
  · rw [min_eq_left hle, max_eq_right (by norm_num : (0 : ℤ) ≤ 100)]
    decide
  · rw [min_eq_right hle]
    rcases le_total (0 : ℤ) (risk_score_raw t h w p) with h0 | h0
    · rw [max_eq_right h0]; exact hraw
    · rw [max_eq_left h0]; exact dvd_zero 5

/-- C10 (implicit): with strictly positive precipitation the raw sum is at
most 40 + 35 + 30 - 20 = 85, so the final score never exceeds 85. -/
theorem claim_C10_rain_caps_score (t h w p : ℚ) (hp : p > 0) :
    risk_score t h w p ≤ 85 := by
  have hraw : risk_score_raw t h w p ≤ 85 := by
    have a1 := ite_le_self (t > 75) (k := 10) (by norm_num)
    have a2 := ite_le_self (t > 85) (k := 15) (by norm_num)
    have a3 := ite_le_self (t > 95) (k := 15) (by norm_num)
    have a4 := ite_le_self (h < 40) (k := 10) (by norm_num)
    have a5 := ite_le_self (h < 25) (k := 15) (by norm_num)
    have a6 := ite_le_self (h < 15) (k := 10) (by norm_num)
    have a7 := ite_le_self (w > 10) (k := 10) (by norm_num)
    have a8 := ite_le_self (w > 20) (k := 10) (by norm_num)
    have a9 := ite_le_self (w > 30) (k := 10) (by norm_num)
    unfold risk_score_raw
    rw [if_pos hp]
    omega
  unfold risk_score
  exact max_le (by norm_num) (le_trans (min_le_right 100 _) hraw)

/-- Witness for C10 at a concrete input. -/
theorem claim_C10_rain_caps_score_witness :
    (1 : ℚ) > 0 ∧ risk_score 100 10 35 1 ≤ 85 :=
  ⟨by norm_num, claim_C10_rain_caps_score 100 10 35 1 (by norm_num)⟩

/-- C3: the level thresholds on the score are exact, both at the boundary
scores named by the spec and as full characterizations. -/
theorem claim_C3_level_thresholds :
    risk_level 75 = "high" ∧ risk_level 76 = "extreme" ∧
    risk_level 50 = "moderate" ∧ risk_level 51 = "high" ∧
    risk_level 25 = "low" ∧ risk_level 26 = "moderate" ∧
    ∀ s : ℤ,
      (risk_level s = "extreme" ↔ 76 ≤ s) ∧
      (risk_level s = "high" ↔ 51 ≤ s ∧ s ≤ 75) ∧
      (risk_level s = "moderate" ↔ 26 ≤ s ∧ s ≤ 50) ∧
      (risk_level s = "low" ↔ s ≤ 25) := by
  refine ⟨rfl, rfl, rfl, rfl, rfl, rfl, ?_⟩
  intro s
  unfold risk_level risk_level_color
  split_ifs with h1 h2 h3 <;>
    refine ⟨⟨fun he => ?_, fun hn => ?_⟩, ⟨fun he => ?_, fun hn => ?_⟩,
            ⟨fun he => ?_, fun hn => ?_⟩, ⟨fun he => ?_, fun hn => ?_⟩⟩ <;>
    first
      | omega
      | rfl
      | (exact absurd he (by decide))

/-! ## Rounding of displayed readings.

Python `round(x, n)` rounds half to even at the n-th decimal digit; the
embedding applies that rule to the `ℚ` model of the float. -/

/-- Round half to even to the nearest integer.  The fractional part
`x - ⌊x⌋` is compared with 1/2 through the cross-multiplied integer
inequality `2 * num ≶ (2 * ⌊x⌋ + 1) * den`, which keeps the definition
kernel-computable. -/
def roundHalfEven (x : ℚ) : ℤ :=
  let f := ⌊x⌋
  if 2 * x.num < (2 * f + 1) * (x.den : ℤ) then f
  else if (2 * f + 1) * (x.den : ℤ) < 2 * x.num then f + 1
  else if f % 2 = 0 then f else f + 1

/-- `10 ^ k * x` written on the numerator, kernel-computably. -/
def scaleBy (k : ℕ) (x : ℚ) : ℚ := mkRat ((10 ^ k : ℕ) * x.num) x.den

/-- Python `round(x, 1)`: round half to even at the first decimal. -/
def round1 (x : ℚ) : ℚ := mkRat (roundHalfEven (scaleBy 1 x)) 10

/-- Python `round(x, 2)`: round half to even at the second decimal. -/
def round2 (x : ℚ) : ℚ := mkRat (roundHalfEven (scaleBy 2 x)) 100

/-! ## WeatherSampler: `get_weather_risk_texas`, main.py lines 348-482. -/

/-- One entry of the `texas_counties` table (main.py lines 356-397). -/
structure County where
  name : String
  fips : String
  lat : ℚ
  lon : ℚ
  deriving DecidableEq

/-- The `current` sub-object of the weather service's JSON body; a field
absent from the body is `none`, defaulted by `current.get(k, default)`
(main.py lines 413-416). -/
structure CurrentWeather where
  temperature_2m : Option ℚ
  relative_humidity_2m : Option ℚ
  wind_speed_10m : Option ℚ
  precipitation : Option ℚ
  deriving DecidableEq

/-- Outcome of one upstream weather request: `raised` models an exception
from `client.get` (network error / timeout), `ok status body` a received
response whose status code is inspected; a body on which `response.json()`
raises is `Except.error`. -/
inductive FetchOutcome where
  | raised
  | ok (status : ℕ) (body : Except String CurrentWeather)

/-- Clamped score of a sampled county from its (defaulted) readings. -/
def countyScore (current : CurrentWeather) : ℤ :=
  risk_score (current.temperature_2m.getD 70) (current.relative_humidity_2m.getD 50)
    (current.wind_speed_10m.getD 5) (current.precipitation.getD 0)

/-- The weather-risk feature appended for one successfully sampled county
(main.py lines 413-473): missing fields default to 70/50/5/0, score, level
and color are computed from the unrounded values, and the displayed
readings are rounded for the property dict. -/
def weatherFeature (county : County) (current : CurrentWeather) : Feature :=
  let temp := current.temperature_2m.getD 70
  let humidity := current.relative_humidity_2m.getD 50
  let wind_speed := current.wind_speed_10m.getD 5
  let precipitation := current.precipitation.getD 0
  let score := risk_score temp humidity wind_speed precipitation
  let lc := risk_level_color score
  { coordinates := (county.lon, county.lat)
    properties := [("type", PropValue.s "weather_risk"),
      ("county", PropValue.s county.name),
      ("fips", PropValue.s county.fips),
      ("risk_level", PropValue.s lc.1),
      ("risk_score", PropValue.i score),
      ("color", PropValue.s lc.2),
      ("temperature", PropValue.q (round1 temp)),
      ("humidity", PropValue.q (round1 humidity)),
      ("wind_speed", PropValue.q (round1 wind_speed)),
      ("precipitation", PropValue.q (round2 precipitation))] }

/-- One iteration of the sampling loop (main.py lines 404-479): a raised
request exception or a malformed JSON body is caught by the `except`
(`continue`), a non-200 status appends nothing, and a 200 response with a
parseable body appends one feature. -/
def sampleCounty (fetch : County → FetchOutcome) (county : County) : Option Feature :=
  match fetch county with
  | FetchOutcome.raised => none
  | FetchOutcome.ok status body =>
    if status = 200 then
      match body with
      | Except.error _ => none
      | Except.ok current => some (weatherFeature county current)
    else none

/-- The accumulation step of the sampling loop: append the sampled feature
when the iteration succeeded, keep the accumulator otherwise. -/
def sampleStep (fetch : County → FetchOutcome)
    (weather_risks : List Feature) (county : County) : List Feature :=
  match sampleCounty fetch county with
  | some f => weather_risks ++ [f]
  | none => weather_risks

/-- `get_weather_risk_texas` (main.py lines 348-482), parameterized by the
upstream oracle and by the point list the loop iterates (the source fixes
it to `texas_counties`): the loop appends to `weather_risks`, skipping
failed samples. -/
def get_weather_risk_texas (fetch : County → FetchOutcome)
    (counties : List County) : List Feature :=
  counties.foldl (sampleStep fetch) []

/-- The fixed county table of the source (main.py lines 356-397),
abbreviated here to representative entries used by concrete scenarios. -/
def dallas : County :=
  { name := "Dallas", fips := "48113"
    lat := mkRat 327668 10000    -- 32.7668
    lon := mkRat (-967780) 10000 } -- -96.7780

/-- Harris county (main.py line 357). -/
def harris : County :=
  { name := "Harris", fips := "48201"
    lat := mkRat 298580 10000    -- 29.8580
    lon := mkRat (-953885) 10000 } -- -95.3885

/-- 100°F, 10% humidity, 35 mph wind, no rain: raw sum 105, score 100. -/
def hotDry : CurrentWeather := ⟨some 100, some 10, some 35, some 0⟩

/-- 100°F, 10% humidity, 5 mph wind, no rain: score 75, level `high`. -/
def warmDry : CurrentWeather := ⟨some 100, some 10, some 5, some 0⟩

/-- 100°F, 50% humidity, 5 mph wind, no rain: score 40, level `moderate`. -/
def warmOnly : CurrentWeather := ⟨some 100, some 50, some 5, some 0⟩

/-- 60°F, 80% humidity, 2 mph wind, 0.1 precipitation: score 0, `low`. -/
def mild : CurrentWeather := ⟨some 60, some 80, some 2, some (mkRat 1 10)⟩

/-! ## RiskAggregator merge: `calculate_risk_zones`, main.py lines 484-514. -/

/-- The transformation applied to each weather-risk entry while merging
(main.py lines 494-512): re-emit the feature with `radius_km` attached,
50 when `props["risk_level"] == "extreme"`, otherwise 30.  The bracket
access is modelled by `dictGet`; every feature reaching this code carries
the key. -/
def zoneOf (risk : Feature) : Feature :=
  let props := risk.properties
  let coords := risk.coordinates
  let radius_km : ℚ :=
    if dictGet props "risk_level" = some (PropValue.s "extreme") then 50 else 30
  { coordinates := coords
    properties := props ++ [("radius_km", PropValue.q radius_km)] }

/-- `calculate_risk_zones` (main.py lines 484-514): `all_features` starts
empty, is extended with the fires, then one zone per weather entry is
appended in loop order. -/
def calculate_risk_zones (fires : List Feature) (weather_risk : List Feature) :
    List Feature :=
  weather_risk.foldl (fun all_features risk => all_features ++ [zoneOf risk]) ([] ++ fires)

/-! ## SummaryReducer: `get_wildfire_alerts`, main.py lines 516-542. -/

/-- One alert entry of the response. -/
structure Alert where
  location : String
  level : String
  message : String
  deriving DecidableEq

/-- Python `str()` of the one-decimal floats stored in a feature's rounded
readings. -/
def decimal1 (x : ℚ) : String :=
  let n : ℤ := roundHalfEven (scaleBy 1 x)
  let sgn := if n < 0 then "-" else ""
  let m := n.natAbs
  sgn ++ toString (m / 10) ++ "." ++ toString (m % 10)

/-- Display form of a stored property value under Python string
interpolation. -/
def propStr : PropValue → String
  | PropValue.s v => v
  | PropValue.q v => decimal1 v
  | PropValue.i v => toString v

/-- The per-feature step of the alerts loop (main.py lines 526-536): skip
non-weather features, test `props["risk_level"] in ["high", "extreme"]`,
then build the alert dict, whose first evaluated access is
`props["location"]`; each bracket access on a missing key is the
`KeyError` Python would raise, modelled as `Except.error`. -/
def featureAlerts (f : Feature) : Except String (List Alert) :=
  let props := f.properties
  if dictGet props "type" = some (PropValue.s "weather_risk") then
    match dictGet props "risk_level" with
    | none => Except.error "KeyError: risk_level"
    | some lv =>
      if lv = PropValue.s "high" ∨ lv = PropValue.s "extreme" then
        match dictGet props "location" with
        | none => Except.error "KeyError: location"
        | some loc =>
          match dictGet props "temperature" with
          | none => Except.error "KeyError: temperature"
          | some t =>
            match dictGet props "humidity" with
            | none => Except.error "KeyError: humidity"
            | some h =>
              match dictGet props "wind_speed" with
              | none => Except.error "KeyError: wind_speed"
              | some w =>
                Except.ok [{ location := propStr loc
                             level := propStr lv
                             message := (propStr lv).toUpper ++ " fire risk in " ++
                               propStr loc ++ " area. Temp: " ++ propStr t ++
                               "°F, Humidity: " ++ propStr h ++ "%, Wind: " ++
                               propStr w ++ " mph" }]
      else Except.ok []
  else Except.ok []

/-- The alerts accumulation loop (main.py lines 525-536): alerts are
collected in feature order and the first `KeyError` aborts the request. -/
def alertsLoop : List Feature → Except String (List Alert)
  | [] => Except.ok []
  | f :: rest => do
    let a ← featureAlerts f
    let more ← alertsLoop rest
    pure (a ++ more)

/-- `get_wildfire_alerts` (main.py lines 516-542) applied to the merged
feature list of the current risk snapshot. -/
def get_wildfire_alerts (features : List Feature) : Except String (List Alert) :=
  alertsLoop features

/-! ## FireFeedClient: `get_active_fires_texas`, main.py lines 288-346. -/

/-- The fixed Texas bounding box (main.py lines 294-299). -/
structure Bbox where
  min_lat : ℚ
  max_lat : ℚ
  min_lon : ℚ
  max_lon : ℚ
  deriving DecidableEq

/-- `texas_bbox` (main.py lines 294-299). -/
def texas_bbox : Bbox :=
  { min_lat := mkRat 258 10     -- 25.8
    max_lat := mkRat 365 10     -- 36.5
    min_lon := mkRat (-1066) 10 -- -106.6
    max_lon := mkRat (-935) 10 } -- -93.5

/-- Numeric value of a digit string. -/
def natOfDigits (l : List Char) : ℕ :=
  l.foldl (fun n c => 10 * n + (c.toNat - 48)) 0

/-- Modelled Python `float(s)` for the plain decimal literals of the fire
feed's coordinate columns: optional sign, digits, at most one decimal
point, at least one digit.  (Python `float` also accepts exponent forms,
`inf`/`nan` and surrounding whitespace, which those columns never use.) -/
def parseFloat? (s : String) : Option ℚ :=
  let cs := s.toList
  let signed : ℤ × List Char :=
    match cs with
    | '-' :: rest => (-1, rest)
    | '+' :: rest => (1, rest)
    | _ => (1, cs)
  let sign := signed.1
  let body := signed.2
  let intPart := body.takeWhile (fun c => c ≠ '.')
  let rest := body.dropWhile (fun c => c ≠ '.')
  match rest with
  | [] =>
    if intPart ≠ [] ∧ intPart.all Char.isDigit then
      some (mkRat (sign * (natOfDigits intPart : ℤ)) 1)
    else none
  | _ :: frac =>
    if (intPart ≠ [] ∨ frac ≠ []) ∧ intPart.all Char.isDigit ∧ frac.all Char.isDigit then
      some (mkRat (sign * ((natOfDigits intPart : ℤ) * (10 ^ frac.length : ℕ) +
        (natOfDigits frac : ℤ))) (10 ^ frac.length))
    else none

/-- The per-row body of the fire-feed parsing loop (main.py lines 314-339):
a comma-split row contributes a feature only if it has at least 4 fields,
its first two fields parse as floats (a `ValueError` is caught and skips
the row), and the point lies inside the bounding box; the confidence,
brightness and date columns each fall back to `"unknown"` when the row is
too short for that column. -/
def fireOfRow (bbox : Bbox) (values : List String) : Option Feature :=
  if values.length ≥ 4 then
    match parseFloat? (values.getD 0 "") with
    | none => none
    | some lat =>
      match parseFloat? (values.getD 1 "") with
      | none => none
      | some lon =>
        if bbox.min_lat ≤ lat ∧ lat ≤ bbox.max_lat ∧
           bbox.min_lon ≤ lon ∧ lon ≤ bbox.max_lon then
          some { coordinates := (lon, lat)
                 properties := [("type", PropValue.s "active_fire"),
                   ("confidence",
                     PropValue.s (if values.length > 8 then values.getD 8 "" else "unknown")),
                   ("brightness",
                     PropValue.s (if values.length > 2 then values.getD 2 "" else "unknown")),
                   ("acq_date",
                     PropValue.s (if values.length > 5 then values.getD 5 "" else "unknown"))] }
        else none
  else none

/-- `get_active_fires_texas` (main.py lines 304-341) on the text of a 200
response: strip, split into lines, skip the header line, and fold the row
loop; any upstream failure before this point degrades to `[]`. -/
def get_active_fires_texas (text : String) : List Feature :=
  let lines := text.trim.splitOn "\n"
  if lines.length > 1 then
    (lines.drop 1).foldl
      (fun fires line =>
        match fireOfRow texas_bbox (line.splitOn ",") with
        | some f => fires ++ [f]
        | none => fires) []
  else []

/-- A 6-field data row of the fire feed, inside the Texas bbox. -/
def row6 : List String := ["30.0", "-100.0", "333.5", "x", "y", "2024-01-01"]

/-- The feature `fireOfRow` produces from `row6`. -/
def fireF6 : Feature :=
  { coordinates := (-100, 30)
    properties := [("type", PropValue.s "active_fire"),
      ("confidence", PropValue.s "unknown"),
      ("brightness", PropValue.s "333.5"),
      ("acq_date", PropValue.s "2024-01-01")] }

/-! ## Structural lemmas about the loops and dict lookups. -/

lemma option_split {α : Type} (o : Option α) : o = none ∨ ∃ a, o = some a := by
  cases o
  · exact Or.inl rfl
  · exact Or.inr ⟨_, rfl⟩

lemma get_weather_risk_acc (fetch : County → FetchOutcome) (counties : List County)
    (acc : List Feature) :
    counties.foldl (sampleStep fetch) acc = acc ++ counties.filterMap (sampleCounty fetch) := by
  induction counties generalizing acc with
  | nil => simp
  | cons c cs ih =>
    rw [List.foldl_cons, List.filterMap_cons]
    rcases option_split (sampleCounty fetch c) with h | ⟨f, h⟩ <;>
      simp [sampleStep, h, ih]

lemma get_weather_risk_texas_eq (fetch : County → FetchOutcome) (counties : List County) :
    get_weather_risk_texas fetch counties = counties.filterMap (sampleCounty fetch) := by
  unfold get_weather_risk_texas
  simpa using get_weather_risk_acc fetch counties []

lemma foldl_append_map {α β : Type} (g : α → β) (l : List α) (acc : List β) :
    l.foldl (fun ws c => ws ++ [g c]) acc = acc ++ l.map g := by
  induction l generalizing acc with
  | nil => simp
  | cons c cs ih => simp [ih]

lemma calculate_risk_zones_eq (fires weather_risk : List Feature) :
    calculate_risk_zones fires weather_risk = fires ++ weather_risk.map zoneOf := by
  unfold calculate_risk_zones
  simpa using foldl_append_map zoneOf weather_risk ([] ++ fires)

lemma sampleCounty_some_iff (fetch : County → FetchOutcome) (c : County) (w : Feature) :
    sampleCounty fetch c = some w ↔
      ∃ current, fetch c = FetchOutcome.ok 200 (Except.ok current) ∧
        w = weatherFeature c current := by
  constructor
  · intro h
    unfold sampleCounty at h
    rcases hfc : fetch c with _ | ⟨status, body⟩ <;> rw [hfc] at h
    · exact absurd h (by simp)
    by_cases hst : status = 200
    · subst hst
      rcases body with e | current
      · exact absurd h (by simp)
      · exact ⟨current, rfl, (Option.some.inj h).symm⟩
    · exact absurd h (by simp [hst])
  · rintro ⟨current, hfc, rfl⟩
    unfold sampleCounty
    rw [hfc]
    rfl

lemma dictGet_append (d1 d2 : List (String × PropValue)) (k : String) :
    dictGet (d1 ++ d2) k = (dictGet d1 k).or (dictGet d2 k) := by
  unfold dictGet
  rw [List.find?_append]
  cases List.find? (fun kv => kv.1 == k) d1 <;> rfl

lemma wf_risk_level (c : County) (cur : CurrentWeather) :
    dictGet (weatherFeature c cur).properties "risk_level"
      = some (PropValue.s (risk_level (countyScore cur))) := rfl

lemma wf_radius_none (c : County) (cur : CurrentWeather) :
    dictGet (weatherFeature c cur).properties "radius_km" = none := rfl

lemma zoneOf_risk_level (f : Feature) :
    dictGet (zoneOf f).properties "risk_level" = dictGet f.properties "risk_level" := by
  show dictGet (f.properties ++ [("radius_km", PropValue.q _)]) "risk_level" = _
  rw [dictGet_append]
  cases dictGet f.properties "risk_level" <;> rfl

lemma zoneOf_radius (f : Feature) :
    dictGet (zoneOf f).properties "radius_km" =
      (dictGet f.properties "radius_km").or (some (PropValue.q
        (if dictGet f.properties "risk_level" = some (PropValue.s "extreme") then 50 else 30))) := by
  show dictGet (f.properties ++ [("radius_km", PropValue.q _)]) "radius_km" = _
  rw [dictGet_append]
  cases dictGet f.properties "radius_km" <;> rfl

/-! ## Claims C7 and C8. -/

/-- C7: the sampler yields at most one observation per input point, and a
failed point leaves the processing of the remaining points unchanged; the
sampler is a total function into a plain list, so no upstream failure
(modelled by `FetchOutcome.raised`, a non-200 status, or a malformed body)
escapes it. -/
theorem claim_C7_sampler_tolerates_failures (fetch : County → FetchOutcome)
    (counties : List County) :
    (get_weather_risk_texas fetch counties).length ≤ counties.length ∧
    ∀ c rest, get_weather_risk_texas fetch (c :: rest)
        = (sampleCounty fetch c).toList ++ get_weather_risk_texas fetch rest := by
  constructor
  · rw [get_weather_risk_texas_eq]
    exact List.length_filterMap_le _ _
  · intro c rest
    rw [get_weather_risk_texas_eq, get_weather_risk_texas_eq, List.filterMap_cons]
    cases sampleCounty fetch c <;> simp

/-- C8: the merged sequence is the fire features followed by the
weather-derived zones in sampler order, with no reordering; in particular
with 1 fire and 2 weather entries the fire feature is at index 0. -/
theorem claim_C8_merge_order :
    (∀ fires weather_risk : List Feature,
      calculate_risk_zones fires weather_risk = fires ++ weather_risk.map zoneOf) ∧
    ∀ f w1 w2 : Feature, (calculate_risk_zones [f] [w1, w2]).head? = some f := by
  constructor
  · exact calculate_risk_zones_eq
  · intro f w1 w2
    rw [calculate_risk_zones_eq]
    rfl

/-! ## Claim C1: the merged radius is 50 for extreme, 30 otherwise. -/

/-- The merged zone derived from extreme conditions at Dallas. -/
def extremeZone : Feature := zoneOf (weatherFeature dallas hotDry)

/-- The merged zone derived from high-level conditions at Dallas. -/
def highZone : Feature := zoneOf (weatherFeature dallas warmDry)

/-- The merged zone derived from moderate conditions at Harris. -/
def moderateZone : Feature := zoneOf (weatherFeature harris warmOnly)

/-- A concrete merged snapshot with extreme, high, and moderate zones. -/
def snapshotFeatures : List Feature :=
  calculate_risk_zones []
    [weatherFeature dallas hotDry, weatherFeature dallas warmDry, weatherFeature harris warmOnly]

/-- C1 counterexample: in a concrete merged snapshot the extreme zone
carries radius 50 (not 60), the high zone radius 30 (not 50), and the
moderate zone radius 30 (not 40). -/
theorem claim_C1_counterexample :
    (extremeZone ∈ snapshotFeatures ∧
      dictGet extremeZone.properties "risk_level" = some (PropValue.s "extreme") ∧
      dictGet extremeZone.properties "radius_km" = some (PropValue.q 50) ∧
      PropValue.q 50 ≠ PropValue.q 60) ∧
    (highZone ∈ snapshotFeatures ∧
      dictGet highZone.properties "risk_level" = some (PropValue.s "high") ∧
      dictGet highZone.properties "radius_km" = some (PropValue.q 30) ∧
      PropValue.q 30 ≠ PropValue.q 50) ∧
    (moderateZone ∈ snapshotFeatures ∧
      dictGet moderateZone.properties "risk_level" = some (PropValue.s "moderate") ∧
      dictGet moderateZone.properties "radius_km" = some (PropValue.q 30) ∧
      PropValue.q 30 ≠ PropValue.q 40) := by
  decide

/-- C1 amended: every weather-derived feature of the merged snapshot has a
radius determined exactly by its level, 50 km for `extreme` and 30 km for
`high`, `moderate`, and `low` alike. -/
theorem claim_C1_amended (fetch : County → FetchOutcome) (counties : List County)
    (fires : List Feature) (f : Feature)
    (hmem : f ∈ calculate_risk_zones fires (get_weather_risk_texas fetch counties))
    (hnotfire : f ∉ fires) :
    ∃ lvl, dictGet f.properties "risk_level" = some (PropValue.s lvl) ∧
      (lvl = "extreme" ∨ lvl = "high" ∨ lvl = "moderate" ∨ lvl = "low") ∧
      dictGet f.properties "radius_km" =
        some (PropValue.q (if lvl = "extreme" then 50 else 30)) := by
  rw [calculate_risk_zones_eq] at hmem
  rcases List.mem_append.1 hmem with hf | hf
  · exact absurd hf hnotfire
  obtain ⟨w, hw, rfl⟩ := List.mem_map.1 hf
  rw [get_weather_risk_texas_eq] at hw
  obtain ⟨c, _, hsc⟩ := List.mem_filterMap.1 hw
  obtain ⟨current, -, rfl⟩ := (sampleCounty_some_iff fetch c w).1 hsc
  refine ⟨risk_level (countyScore current), ?_, ?_, ?_⟩
  · rw [zoneOf_risk_level, wf_risk_level]
  · unfold risk_level risk_level_color
    split_ifs <;> simp
  · rw [zoneOf_radius, wf_radius_none]
    simp [wf_risk_level]

/-- Witness for C1's amended theorem at a concrete snapshot. -/
theorem claim_C1_amended_witness :
    (zoneOf (weatherFeature dallas hotDry) ∈
      calculate_risk_zones []
        (get_weather_risk_texas (fun _ => FetchOutcome.ok 200 (Except.ok hotDry)) [dallas])) ∧
    (zoneOf (weatherFeature dallas hotDry) ∉ ([] : List Feature)) ∧
    (∃ lvl,
      dictGet (zoneOf (weatherFeature dallas hotDry)).properties "risk_level"
        = some (PropValue.s lvl) ∧
      (lvl = "extreme" ∨ lvl = "high" ∨ lvl = "moderate" ∨ lvl = "low") ∧
      dictGet (zoneOf (weatherFeature dallas hotDry)).properties "radius_km"
        = some (PropValue.q (if lvl = "extreme" then 50 else 30))) :=
  ⟨by decide, by decide,
    claim_C1_amended (fun _ => FetchOutcome.ok 200 (Except.ok hotDry)) [dallas] []
      (zoneOf (weatherFeature dallas hotDry)) (by decide) (by decide)⟩

/-! ## Claim C2: the alerts endpoint and the `location` key. -/

/-- C2: the alert builder reads `props["location"]`, but weather features
store their label under `"county"`; on any snapshot containing a high or
extreme weather feature the alerts operation raises `KeyError` instead of
returning that feature's alert entry. -/
theorem claim_C2_alerts_location_keyerror :
    dictGet (zoneOf (weatherFeature dallas hotDry)).properties "location" = none ∧
    dictGet (zoneOf (weatherFeature dallas hotDry)).properties "county"
      = some (PropValue.s "Dallas") ∧
    dictGet (zoneOf (weatherFeature dallas hotDry)).properties "risk_level"
      = some (PropValue.s "extreme") ∧
    get_wildfire_alerts (calculate_risk_zones [] [weatherFeature dallas hotDry])
      = Except.error "KeyError: location" :=
  ⟨rfl, rfl, rfl, rfl⟩

/-! ## Claim C6: per-row fire-feed parsing. -/

lemma fireOfRow_short (bbox : Bbox) (values : List String)
    (h4 : ¬ values.length ≥ 4) : fireOfRow bbox values = none := by
  unfold fireOfRow
  rw [if_neg h4]

lemma fireOfRow_none_lat (bbox : Bbox) (values : List String)
    (h4 : values.length ≥ 4) (h0 : parseFloat? (values.getD 0 "") = none) :
    fireOfRow bbox values = none := by
  unfold fireOfRow
  rw [if_pos h4, h0]

lemma fireOfRow_none_lon (bbox : Bbox) (values : List String) (la : ℚ)
    (h4 : values.length ≥ 4) (h0 : parseFloat? (values.getD 0 "") = some la)
    (h1 : parseFloat? (values.getD 1 "") = none) :
    fireOfRow bbox values = none := by
  unfold fireOfRow
  rw [if_pos h4, h0, h1]

lemma fireOfRow_eval (bbox : Bbox) (values : List String) (la lo : ℚ)
    (h4 : values.length ≥ 4) (h0 : parseFloat? (values.getD 0 "") = some la)
    (h1 : parseFloat? (values.getD 1 "") = some lo) :
    fireOfRow bbox values =
      if bbox.min_lat ≤ la ∧ la ≤ bbox.max_lat ∧ bbox.min_lon ≤ lo ∧ lo ≤ bbox.max_lon then
        some { coordinates := (lo, la)
               properties := [("type", PropValue.s "active_fire"),
                 ("confidence",
                   PropValue.s (if values.length > 8 then values.getD 8 "" else "unknown")),
                 ("brightness",
                   PropValue.s (if values.length > 2 then values.getD 2 "" else "unknown")),
                 ("acq_date",
                   PropValue.s (if values.length > 5 then values.getD 5 "" else "unknown"))] }
      else none := by
  unfold fireOfRow
  rw [if_pos h4, h0, h1]

/-- C6 counterexample: `row6` has 6 fields, contributes a detection, and
reports the actual field value `"333.5"` for brightness, not `"unknown"`. -/
theorem claim_C6_counterexample :
    4 ≤ row6.length ∧ row6.length < 9 ∧
    fireOfRow texas_bbox row6 = some fireF6 ∧
    dictGet fireF6.properties "brightness" = some (PropValue.s "333.5") ∧
    PropValue.s "333.5" ≠ PropValue.s "unknown" := by
  decide

/-- C6 amended: a row contributes a detection iff it has at least 4 fields,
its first two fields parse as floats, and the point lies inside the bbox;
a contributing row reports `"unknown"` for confidence iff it has fewer
than 9 fields, for the acquisition date iff fewer than 6, and for
brightness iff fewer than 3 (never, since contributing rows have ≥ 4). -/
theorem claim_C6_amended (bbox : Bbox) (values : List String) :
    ((fireOfRow bbox values).isSome ↔
      values.length ≥ 4 ∧ ∃ la lo,
        parseFloat? (values.getD 0 "") = some la ∧
        parseFloat? (values.getD 1 "") = some lo ∧
        bbox.min_lat ≤ la ∧ la ≤ bbox.max_lat ∧ bbox.min_lon ≤ lo ∧ lo ≤ bbox.max_lon) ∧
    (∀ f, fireOfRow bbox values = some f →
      dictGet f.properties "confidence"
        = some (PropValue.s (if values.length > 8 then values.getD 8 "" else "unknown")) ∧
      dictGet f.properties "brightness"
        = some (PropValue.s (if values.length > 2 then values.getD 2 "" else "unknown")) ∧
      dictGet f.properties "acq_date"
        = some (PropValue.s (if values.length > 5 then values.getD 5 "" else "unknown"))) := by
  by_cases h4 : values.length ≥ 4
  · rcases option_split (parseFloat? (values.getD 0 "")) with h0 | ⟨la, h0⟩
    · rw [fireOfRow_none_lat bbox values h4 h0]
      constructor
      · simp only [Option.isSome_none, Bool.false_eq_true, false_iff]
        rintro ⟨-, la, lo, h0', -⟩
        rw [h0] at h0'
        exact Option.noConfusion h0'
      · intro f hf
        exact Option.noConfusion hf
    · rcases option_split (parseFloat? (values.getD 1 "")) with h1 | ⟨lo, h1⟩
      · rw [fireOfRow_none_lon bbox values la h4 h0 h1]
        constructor
        · simp only [Option.isSome_none, Bool.false_eq_true, false_iff]
          rintro ⟨-, la', lo', -, h1', -⟩
          rw [h1] at h1'
          exact Option.noConfusion h1'
        · intro f hf
          exact Option.noConfusion hf
      · rw [fireOfRow_eval bbox values la lo h4 h0 h1]
        by_cases hbb : bbox.min_lat ≤ la ∧ la ≤ bbox.max_lat ∧
            bbox.min_lon ≤ lo ∧ lo ≤ bbox.max_lon
        · rw [if_pos hbb]
          constructor
          · simp only [Option.isSome_some, true_iff]
            exact ⟨h4, la, lo, h0, h1, hbb.1, hbb.2.1, hbb.2.2.1, hbb.2.2.2⟩
          · intro f hf
            cases Option.some.inj hf
            exact ⟨rfl, rfl, rfl⟩
        · rw [if_neg hbb]
          constructor
          · simp only [Option.isSome_none, Bool.false_eq_true, false_iff]
            rintro ⟨-, la', lo', h0', h1', hb1, hb2, hb3, hb4⟩
            rw [h0] at h0'
            rw [h1] at h1'
            obtain rfl : la' = la := (Option.some.inj h0').symm
            obtain rfl : lo' = lo := (Option.some.inj h1').symm
            exact hbb ⟨hb1, hb2, hb3, hb4⟩
          · intro f hf
            exact Option.noConfusion hf
  · rw [fireOfRow_short bbox values h4]
    constructor
    · simp only [Option.isSome_none, Bool.false_eq_true, false_iff]
      rintro ⟨h4', -⟩
      exact h4 h4'
    · intro f hf
      exact Option.noConfusion hf

/-- Witness for C6's amended theorem at the 6-field row. -/
theorem claim_C6_amended_witness :
    fireOfRow texas_bbox row6 = some fireF6 ∧
    (dictGet fireF6.properties "confidence"
        = some (PropValue.s (if row6.length > 8 then row6.getD 8 "" else "unknown")) ∧
      dictGet fireF6.properties "brightness"
        = some (PropValue.s (if row6.length > 2 then row6.getD 2 "" else "unknown")) ∧
      dictGet fireF6.properties "acq_date"
        = some (PropValue.s (if row6.length > 5 then row6.getD 5 "" else "unknown"))) :=
  ⟨by decide, (claim_C6_amended texas_bbox row6).2 fireF6 (by decide)⟩

end GisApp
